import Mathlib

/-!
Verification of the PE Collective submission relay (src/google-apps-script.js)
and event tracker (src/assets/js/tracking.js), as a shallow embedding.

Platform APIs (JSON.parse, SpreadsheetApp, ContentService, Date,
gtag, the DOM) are external collaborators; they are modelled as explicit
inputs: the parse result is an `Except` value, the spreadsheet is an
explicit `SheetEnv` threaded through the handler, the current date string
is a parameter `now`, and DOM queries are fields of an `Element`.
-/

namespace PECollective

/-- JavaScript values as relevant to the relay: the possible results of
`JSON.parse` plus `undefined` (which property access on a non-object, or a
missing key, yields).  Object fields are the key/value bindings of the
parsed object; `JSON.parse` produces at most one binding per key. -/
inductive JSValue where
  | undefined : JSValue
  | null : JSValue
  | bool : Bool → JSValue
  | num : Int → JSValue
  | str : String → JSValue
  | arr : List JSValue → JSValue
  | obj : List (String × JSValue) → JSValue

/-- JavaScript truthiness: `undefined`, `null`, `false`, `0` and the empty
string are falsy; every other value (arrays and objects included) is truthy. -/
def truthy : JSValue → Bool
  | .undefined => false
  | .null => false
  | .bool b => b
  | .num n => decide (n ≠ 0)
  | .str s => decide (s ≠ "")
  | .arr _ => true
  | .obj _ => true

/-- The JavaScript `v || w` operator: `v` if truthy, else `w`. -/
def jsOr (v w : JSValue) : JSValue := if truthy v then v else w

/-- Property access `data[k]`: throws a TypeError on `null`/`undefined`,
yields the binding on an object (or `undefined` when the key is absent),
and `undefined` on any other primitive. -/
def getProp : JSValue → String → Except String JSValue
  | .null, k => .error ("TypeError: Cannot read properties of null (reading " ++ k ++ ")")
  | .undefined, k => .error ("TypeError: Cannot read properties of undefined (reading " ++ k ++ ")")
  | .obj fs, k => .ok ((fs.lookup k).getD .undefined)
  | _, _ => .ok .undefined

/-- `const SHEET_NAME = 'Registrants'` — the configured sheet-tab name. -/
def SHEET_NAME : String := "Registrants"

/-- `const COLUMNS = [...]` — the fixed column order of the sheet. -/
def COLUMNS : List String :=
  ["First Name", "Last Name", "Business Email", "LinkedIn URL",
   "Company", "Job Title", "Date Joined"]

/-- The JSON keys of the submission payload, in the column order the
handler reads them. -/
def fieldKeys : List String :=
  ["first_name", "last_name", "email", "linkedin_url", "company",
   "job_title", "date_joined"]

/-- One appended sheet row: a list of cell values. -/
abbrev Row := List JSValue

/-- The external spreadsheet: named sheet tabs, each a list of rows, plus a
fault knob for the platform `appendRow` call (`some e`: the next append
throws `e`; `none`: appends succeed).  The fault is external to the relay. -/
structure SheetEnv where
  sheets : List (String × List Row)
  appendError : Option String

/-- `ss.getSheetByName(name)`: the first sheet tab with the given name,
`none` when absent (the API returns null). -/
def findSheet (name : String) : List (String × List Row) → Option (List Row)
  | [] => none
  | (n, rows) :: rest => if n = name then some rows else findSheet name rest

/-- `sheet.appendRow(row)` on the first sheet tab with the given name. -/
def appendToSheet (name : String) (row : Row) :
    List (String × List Row) → List (String × List Row)
  | [] => []
  | (n, rows) :: rest =>
    if n = name then (n, rows ++ [row]) :: rest
    else (n, rows) :: appendToSheet name row rest

/-- The JSON response envelope `{status, message}` (the handler serializes
it with `JSON.stringify` and marks it `MimeType.JSON`; we model it at the
object level). -/
structure Envelope where
  status : String
  message : String

/-- The `rowData` block of `doPost`: each cell is `data.key || default`,
where the default is the empty string for the six free-text fields and the
current-date string `now` for `date_joined`.  Property access on a
non-object parse result can throw, hence `Except`. -/
def buildRow (now : String) (data : JSValue) : Except String Row :=
  match getProp data "first_name", getProp data "last_name", getProp data "email",
        getProp data "linkedin_url", getProp data "company", getProp data "job_title",
        getProp data "date_joined" with
  | .ok fn, .ok ln, .ok em, .ok lu, .ok co, .ok jt, .ok dj =>
    .ok [jsOr fn (.str ""), jsOr ln (.str ""), jsOr em (.str ""), jsOr lu (.str ""),
         jsOr co (.str ""), jsOr jt (.str ""), jsOr dj (.str now)]
  | .error e, _, _, _, _, _, _ => .error e
  | _, .error e, _, _, _, _, _ => .error e
  | _, _, .error e, _, _, _, _ => .error e
  | _, _, _, .error e, _, _, _ => .error e
  | _, _, _, _, .error e, _, _ => .error e
  | _, _, _, _, _, .error e, _ => .error e
  | _, _, _, _, _, _, .error e => .error e

/-- The row `buildRow` produces on an object payload (it never throws
there): cell `i` is the binding of `fieldKeys[i]` when truthy, else the
default for that column. -/
def cellOf (fs : List (String × JSValue)) (k : String) (dflt : JSValue) : JSValue :=
  jsOr ((fs.lookup k).getD .undefined) dflt

/-- `buildRow` specialised to an object payload. -/
def rowOfObj (now : String) (fs : List (String × JSValue)) : Row :=
  [cellOf fs "first_name" (.str ""), cellOf fs "last_name" (.str ""),
   cellOf fs "email" (.str ""), cellOf fs "linkedin_url" (.str ""),
   cellOf fs "company" (.str ""), cellOf fs "job_title" (.str ""),
   cellOf fs "date_joined" (.str now)]

/-- `doPost(e)`: parse the body (the parse result of
`JSON.parse(e.postData.contents)` is the `parsed` input, `.error` when the
platform call threw), locate the configured sheet, build the 7-cell row,
append it, and answer a success envelope; any exception along the way is
caught by the single top-level try/catch and answered as an error envelope
carrying the exception's string form.  `now` is
`new Date().toLocaleDateString('en-US')`. -/
def doPost (now : String) (parsed : Except String JSValue) (env : SheetEnv) :
    Envelope × SheetEnv :=
  match parsed with
  | .error e => (⟨"error", e⟩, env)
  | .ok data =>
    match findSheet SHEET_NAME env.sheets with
    | none =>
      (⟨"error", "Error: Sheet \"" ++ SHEET_NAME ++
          "\" not found. Check the SHEET_NAME configuration."⟩, env)
    | some _ =>
      match buildRow now data with
      | .error e => (⟨"error", e⟩, env)
      | .ok row =>
        match env.appendError with
        | some e => (⟨"error", e⟩, env)
        | none =>
          (⟨"success", "Registration saved successfully"⟩,
           { env with sheets := appendToSheet SHEET_NAME row env.sheets })

/-- `doGet(e)`: ignores its input and returns the static liveness envelope.
The source never touches the spreadsheet here; the store is threaded
through unchanged so the no-write property is statable. -/
def doGet (_e : JSValue) (env : SheetEnv) : Envelope × SheetEnv :=
  (⟨"ok", "PE Collective Form Handler is running. Use POST to submit data."⟩, env)

/-- A DOM element as the tracking script observes one, with the results of
the DOM calls the job-card handler performs: the element's own
`.job-card__title` descendant, its closest `.job-card` ancestor, the first
`h3, h2, .job-card__title` descendant, the nullable `textContent`, and the
nullable `href` attribute. -/
inductive Element where
  | mk : Option Element → Option Element → Option Element →
      Option String → Option String → Element

/-- `el.querySelector('.job-card__title')` (null when absent). -/
def Element.queryJobCardTitle : Element → Option Element
  | .mk q _ _ _ _ => q

/-- `el.closest('.job-card')` (null when absent). -/
def Element.closestJobCard : Element → Option Element
  | .mk _ c _ _ _ => c

/-- `el.querySelector('h3, h2, .job-card__title')` (null when absent). -/
def Element.queryHeading : Element → Option Element
  | .mk _ _ h _ _ => h

/-- `el.textContent` (nullable). -/
def Element.textContent : Element → Option String
  | .mk _ _ _ t _ => t

/-- `el.getAttribute('href')` (null when absent). -/
def Element.hrefAttr : Element → Option String
  | .mk _ _ _ _ h => h

/-- `a || b` on DOM nodes: every element is truthy, `null` is falsy. -/
def jsOrElem (a b : Option Element) : Option Element :=
  match a with
  | some x => some x
  | none => b

/-- One call `track(eventName, params)`, i.e. one
`gtag('event', eventName, params)` sink call. -/
structure TrackEvent where
  eventName : String
  params : List (String × String)

/-- The heading-based title of the job-card handler: `titleEl` is
`el.querySelector('.job-card__title') || el.closest('.job-card')`; when it
exists and contains an `h3, h2, .job-card__title` node, the result is that
node's trimmed `textContent`; otherwise the empty string (the handler's
`title` variable after the first `if`). -/
def headingTitle (el : Element) : String :=
  match jsOrElem el.queryJobCardTitle el.closestJobCard with
  | some t =>
    match t.queryHeading with
    | some h => (h.textContent.getD "").trim
    | none => ""
  | none => ""

/-- `(el.textContent || '').trim().substring(0, 80)` — the handler's final
fallback for the job title. -/
def ownTextTruncated (el : Element) : String :=
  (el.textContent.getD "").trim.take 80

/-- The `job_card_click` listener body: resolve a best-effort job title
(heading inside the card when present and non-blank, else the element's own
trimmed text cut to 80 characters) and emit one sink call.  `path` is
`window.location.pathname`. -/
def jobCardClickHandler (path : String) (el : Element) : TrackEvent :=
  let title := if headingTitle el = "" then ownTextTruncated el else headingTitle el
  ⟨"job_card_click",
   [("job_title", title), ("link_url", el.hrefAttr.getD ""), ("page_location", path)]⟩

/-- The ordered job-title extraction strategies of the spec, first
non-empty result wins: (1) the trimmed text of the heading found inside
the element's own `.job-card__title` descendant or, failing that
descendant, its enclosing `.job-card` ancestor; (2) the element's own
trimmed text truncated to at most 80 characters. -/
def jobTitleStrategies (el : Element) : List String :=
  [headingTitle el, ownTextTruncated el]

/-- First non-empty string of a strategy list, empty when none is. -/
def firstNonEmpty (xs : List String) : String :=
  (xs.find? (fun s => s ≠ "")).getD ""

/-- The eight interaction classes whose selectors the tracker scans for. -/
inductive EventKind where
  | ctaClick | jobCardClick | newsletterSubmit | toolCtaClick
  | outboundClick | salaryFilterChange | glossaryClick | faqToggle

/-- The rendered document, as the eight `querySelectorAll` result lists the
tracker iterates over. -/
structure Doc where
  ctaEls : List Element
  jobCardEls : List Element
  newsletterForms : List Element
  toolEls : List Element
  outboundEls : List Element
  filterEls : List Element
  glossaryEls : List Element
  detailsEls : List Element

/-- The listener registrations the tracker performs, one per matched
element, in source order. -/
def registrations (doc : Doc) : List (EventKind × Element) :=
  doc.ctaEls.map (fun e => (EventKind.ctaClick, e)) ++
  doc.jobCardEls.map (fun e => (EventKind.jobCardClick, e)) ++
  doc.newsletterForms.map (fun e => (EventKind.newsletterSubmit, e)) ++
  doc.toolEls.map (fun e => (EventKind.toolCtaClick, e)) ++
  doc.outboundEls.map (fun e => (EventKind.outboundClick, e)) ++
  doc.filterEls.map (fun e => (EventKind.salaryFilterChange, e)) ++
  doc.glossaryEls.map (fun e => (EventKind.glossaryClick, e)) ++
  doc.detailsEls.map (fun e => (EventKind.faqToggle, e))

/-- The tracker IIFE at page load: `if (typeof gtag !== 'function')
return;` and otherwise register every listener.  Result: the listeners
registered and the sink calls made during initialization (the source makes
none at the top level; all `track` calls sit inside listeners). -/
def initTracker (gtagIsFunction : Bool) (doc : Doc) :
    List (EventKind × Element) × List TrackEvent :=
  if gtagIsFunction then (registrations doc, []) else ([], [])

/-! ## Helper lemmas -/

theorem buildRow_obj (now : String) (fs : List (String × JSValue)) :
    buildRow now (.obj fs) = .ok (rowOfObj now fs) := rfl

theorem findSheet_appendToSheet (name : String) (row : Row)
    (sheets : List (String × List Row)) (rows : List Row)
    (h : findSheet name sheets = some rows) :
    findSheet name (appendToSheet name row sheets) = some (rows ++ [row]) := by
  induction sheets with
  | nil => simp [findSheet] at h
  | cons p rest ih =>
    obtain ⟨n, rs⟩ := p
    by_cases hn : n = name
    · subst hn
      simp [findSheet, appendToSheet] at h ⊢
      rw [h]
    · simp only [findSheet, appendToSheet, hn, if_false] at h ⊢
      exact ih h

theorem doPost_obj_ok (now : String) (fs : List (String × JSValue))
    (env : SheetEnv) (rows : List Row)
    (hs : findSheet SHEET_NAME env.sheets = some rows)
    (ha : env.appendError = none) :
    doPost now (.ok (.obj fs)) env =
      (⟨"success", "Registration saved successfully"⟩,
       { env with sheets := appendToSheet SHEET_NAME (rowOfObj now fs) env.sheets }) := by
  simp [doPost, hs, ha, buildRow_obj]

/-! ## Claims -/

/-- C1: for a valid-JSON body with all seven fields present as non-empty
strings, and the configured sheet present (the platform append assumed to
succeed, as the spec assumes the store atomic/durable), `doPost` appends
exactly one row equal to the 7 input values in the fixed column order and
returns the envelope `status: success, message: Registration saved
successfully`. -/
theorem doPost_full_fields_appends_row
    (now fn ln em lu co jt dj : String) (fs : List (String × JSValue))
    (env : SheetEnv) (rows : List Row)
    (h1 : fs.lookup "first_name" = some (.str fn)) (n1 : fn ≠ "")
    (h2 : fs.lookup "last_name" = some (.str ln)) (n2 : ln ≠ "")
    (h3 : fs.lookup "email" = some (.str em)) (n3 : em ≠ "")
    (h4 : fs.lookup "linkedin_url" = some (.str lu)) (n4 : lu ≠ "")
    (h5 : fs.lookup "company" = some (.str co)) (n5 : co ≠ "")
    (h6 : fs.lookup "job_title" = some (.str jt)) (n6 : jt ≠ "")
    (h7 : fs.lookup "date_joined" = some (.str dj)) (n7 : dj ≠ "")
    (hs : findSheet SHEET_NAME env.sheets = some rows)
    (ha : env.appendError = none) :
    (doPost now (.ok (.obj fs)) env).1 =
      ⟨"success", "Registration saved successfully"⟩ ∧
    findSheet SHEET_NAME (doPost now (.ok (.obj fs)) env).2.sheets =
      some (rows ++ [[.str fn, .str ln, .str em, .str lu, .str co, .str jt, .str dj]]) := by
  have hrow : rowOfObj now fs =
      [.str fn, .str ln, .str em, .str lu, .str co, .str jt, .str dj] := by
    simp [rowOfObj, cellOf, h1, h2, h3, h4, h5, h6, h7, jsOr, truthy,
      n1, n2, n3, n4, n5, n6, n7]
  rw [doPost_obj_ok now fs env rows hs ha, hrow]
  exact ⟨rfl, findSheet_appendToSheet _ _ _ _ hs⟩

/-- Witness for C1 at the repository's own test payload. -/
theorem doPost_full_fields_appends_row_witness :
    (doPost "02/14/2026"
      (.ok (.obj [("first_name", .str "Test"), ("last_name", .str "User"),
        ("email", .str "test@example.com"),
        ("linkedin_url", .str "https://linkedin.com/in/testuser"),
        ("company", .str "Test Company"), ("job_title", .str "Test Engineer"),
        ("date_joined", .str "02/14/2026")]))
      ⟨[("Registrants", [])], none⟩).1 =
      ⟨"success", "Registration saved successfully"⟩ ∧
    findSheet SHEET_NAME
      (doPost "02/14/2026"
        (.ok (.obj [("first_name", .str "Test"), ("last_name", .str "User"),
          ("email", .str "test@example.com"),
          ("linkedin_url", .str "https://linkedin.com/in/testuser"),
          ("company", .str "Test Company"), ("job_title", .str "Test Engineer"),
          ("date_joined", .str "02/14/2026")]))
        ⟨[("Registrants", [])], none⟩).2.sheets =
      some ([] ++ [[.str "Test", .str "User", .str "test@example.com",
        .str "https://linkedin.com/in/testuser", .str "Test Company",
        .str "Test Engineer", .str "02/14/2026"]]) :=
  doPost_full_fields_appends_row "02/14/2026" "Test" "User" "test@example.com"
    "https://linkedin.com/in/testuser" "Test Company" "Test Engineer" "02/14/2026"
    _ _ _ rfl (by decide) rfl (by decide) rfl (by decide) rfl (by decide)
    rfl (by decide) rfl (by decide) rfl (by decide) rfl rfl

/-- C2: for a valid-JSON object body, the appended row always has exactly
7 cells; every absent free-text field yields an empty-string cell, and an
absent `date_joined` yields the current-date string `now`.  In particular
the empty object appends `["","","","","","", now]` with status success. -/
theorem doPost_missing_fields_default
    (now : String) (fs : List (String × JSValue)) (env : SheetEnv) (rows : List Row)
    (hs : findSheet SHEET_NAME env.sheets = some rows)
    (ha : env.appendError = none) :
    (doPost now (.ok (.obj fs)) env).1.status = "success" ∧
    findSheet SHEET_NAME (doPost now (.ok (.obj fs)) env).2.sheets =
      some (rows ++ [rowOfObj now fs]) ∧
    (rowOfObj now fs).length = 7 ∧
    (fs.lookup "first_name" = none → (rowOfObj now fs).getD 0 .undefined = .str "") ∧
    (fs.lookup "last_name" = none → (rowOfObj now fs).getD 1 .undefined = .str "") ∧
    (fs.lookup "email" = none → (rowOfObj now fs).getD 2 .undefined = .str "") ∧
    (fs.lookup "linkedin_url" = none → (rowOfObj now fs).getD 3 .undefined = .str "") ∧
    (fs.lookup "company" = none → (rowOfObj now fs).getD 4 .undefined = .str "") ∧
    (fs.lookup "job_title" = none → (rowOfObj now fs).getD 5 .undefined = .str "") ∧
    (fs.lookup "date_joined" = none → (rowOfObj now fs).getD 6 .undefined = .str now) := by
  rw [doPost_obj_ok now fs env rows hs ha]
  refine ⟨rfl, findSheet_appendToSheet _ _ _ _ hs, rfl, ?_, ?_, ?_, ?_, ?_, ?_, ?_⟩ <;>
    (intro h; simp [rowOfObj, cellOf, h, jsOr, truthy])

/-- Witness for C2 at the empty-object payload. -/
theorem doPost_missing_fields_default_witness :
    (doPost "01/02/2026" (.ok (.obj [])) ⟨[("Registrants", [])], none⟩).1.status
      = "success" ∧
    findSheet SHEET_NAME
      (doPost "01/02/2026" (.ok (.obj [])) ⟨[("Registrants", [])], none⟩).2.sheets =
      some [[.str "", .str "", .str "", .str "", .str "", .str "",
        .str "01/02/2026"]] := by
  have h := doPost_missing_fields_default "01/02/2026" []
    ⟨[("Registrants", [])], none⟩ [] rfl rfl
  exact ⟨h.1, h.2.1⟩

/-- C3: for every request input — parse failure, missing sheet, failing
append included — `doPost` never raises past its boundary: the response is
always one of the two envelope shapes, the fixed success envelope or an
error envelope. -/
theorem doPost_always_envelope (now : String) (parsed : Except String JSValue)
    (env : SheetEnv) :
    ((doPost now parsed env).1.status = "success" ∧
     (doPost now parsed env).1.message = "Registration saved successfully") ∨
    (doPost now parsed env).1.status = "error" := by
  rcases parsed with e | data
  · exact Or.inr rfl
  rcases hfs : findSheet SHEET_NAME env.sheets with _ | rows
  · exact Or.inr (by simp [doPost, hfs])
  rcases hbr : buildRow now data with e | row
  · exact Or.inr (by simp [doPost, hfs, hbr])
  rcases hae : env.appendError with _ | e
  · exact Or.inl (by simp [doPost, hfs, hbr, hae])
  · exact Or.inr (by simp [doPost, hfs, hbr, hae])

/-- C4: on every failure path of `doPost` the store is unchanged (zero
rows appended, no partial writes); and when the parse succeeded but the
configured sheet name does not exist, the error message contains the
configured name. -/
theorem doPost_failure_no_write (now : String) (parsed : Except String JSValue)
    (env : SheetEnv) :
    ((doPost now parsed env).1.status = "error" → (doPost now parsed env).2 = env) ∧
    (∀ data, parsed = .ok data → findSheet SHEET_NAME env.sheets = none →
      ∃ a b, (doPost now parsed env).1.message = a ++ SHEET_NAME ++ b) := by
  constructor
  · rcases parsed with e | data
    · intro _; rfl
    rcases hfs : findSheet SHEET_NAME env.sheets with _ | rows
    · intro _; simp [doPost, hfs]
    rcases hbr : buildRow now data with e | row
    · intro _; simp [doPost, hfs, hbr]
    rcases hae : env.appendError with _ | e
    · intro hcontra
      exfalso
      rw [show (doPost now (.ok data) env).1.status = "success" from
        by simp [doPost, hfs, hbr, hae]] at hcontra
      exact absurd hcontra (by decide)
    · intro _; simp [doPost, hfs, hbr, hae]
  · rintro data rfl hfs
    exact ⟨"Error: Sheet \"", "\" not found. Check the SHEET_NAME configuration.",
      by simp [doPost, hfs]⟩

/-- Witness for C4 at an invalid body and at a store with no sheet tabs. -/
theorem doPost_failure_no_write_witness :
    ((doPost "01/02/2026" (.ok (.obj [("first_name", .str "A")])) ⟨[], none⟩).1.status
        = "error" →
      (doPost "01/02/2026" (.ok (.obj [("first_name", .str "A")])) ⟨[], none⟩).2
        = ⟨[], none⟩) ∧
    (∀ data, (.ok (.obj [("first_name", .str "A")]) :
        Except String JSValue) = .ok data →
      findSheet SHEET_NAME (⟨[], none⟩ : SheetEnv).sheets = none →
      ∃ a b,
        (doPost "01/02/2026" (.ok (.obj [("first_name", .str "A")]))
          ⟨[], none⟩).1.message = a ++ SHEET_NAME ++ b) :=
  doPost_failure_no_write "01/02/2026" (.ok (.obj [("first_name", .str "A")])) ⟨[], none⟩

/-- C5: two calls of `doPost` with identical valid input append two rows —
no deduplication is performed. -/
theorem doPost_twice_appends_twice (now : String) (fs : List (String × JSValue))
    (env : SheetEnv) (rows : List Row)
    (hs : findSheet SHEET_NAME env.sheets = some rows)
    (ha : env.appendError = none) :
    findSheet SHEET_NAME
      (doPost now (.ok (.obj fs)) (doPost now (.ok (.obj fs)) env).2).2.sheets =
      some (rows ++ [rowOfObj now fs, rowOfObj now fs]) := by
  have h1 := doPost_obj_ok now fs env rows hs ha
  have hs1 : findSheet SHEET_NAME (doPost now (.ok (.obj fs)) env).2.sheets =
      some (rows ++ [rowOfObj now fs]) := by
    rw [h1]
    exact findSheet_appendToSheet _ _ _ _ hs
  have ha1 : (doPost now (.ok (.obj fs)) env).2.appendError = none := by
    rw [h1]
    exact ha
  rw [doPost_obj_ok now fs (doPost now (.ok (.obj fs)) env).2
    (rows ++ [rowOfObj now fs]) hs1 ha1]
  rw [findSheet_appendToSheet SHEET_NAME (rowOfObj now fs) _ _ hs1]
  simp

/-- Witness for C5 at a concrete payload against an empty sheet. -/
theorem doPost_twice_appends_twice_witness :
    findSheet SHEET_NAME
      (doPost "03/01/2026" (.ok (.obj [("email", .str "a@b.c")]))
        (doPost "03/01/2026" (.ok (.obj [("email", .str "a@b.c")]))
          ⟨[("Registrants", [])], none⟩).2).2.sheets =
      some ([] ++ [rowOfObj "03/01/2026" [("email", .str "a@b.c")],
        rowOfObj "03/01/2026" [("email", .str "a@b.c")]]) :=
  doPost_twice_appends_twice "03/01/2026" [("email", .str "a@b.c")]
    ⟨[("Registrants", [])], none⟩ [] rfl rfl

/-- C6: `doGet` ignores its input, appends no row (the store is unchanged),
and always returns the static ok envelope. -/
theorem doGet_liveness (e : JSValue) (env : SheetEnv) :
    doGet e env =
      (⟨"ok", "PE Collective Form Handler is running. Use POST to submit data."⟩,
       env) := rfl

/-- C7: when the analytics sink `gtag` is not a function at initialization
time, the tracker registers no listener and makes no sink call, for every
document state. -/
theorem initTracker_noop_without_gtag (doc : Doc) :
    initTracker false doc = ([], []) := rfl

/-- C8: for every clicked element, the reported `job_title` equals the
first non-empty result of the ordered strategy list — heading text inside
the element's `.job-card__title` descendant or its enclosing `.job-card`
ancestor, else the element's own trimmed text cut to 80 characters — and
the handler is total, so it never throws whatever sub-elements are
absent. -/
theorem jobCardClick_title_fallback (path : String) (el : Element) :
    (jobCardClickHandler path el).params.lookup "job_title" =
      some (firstNonEmpty (jobTitleStrategies el)) := by
  by_cases h1 : headingTitle el = "" <;>
    by_cases h2 : ownTextTruncated el = "" <;>
      simp [jobCardClickHandler, jobTitleStrategies, firstNonEmpty, List.find?, h1, h2]

/-- C9: `doPost` treats a falsy field value exactly like an absent field —
supplying `date_joined` as the empty string (or any falsy value) still
yields the current-date default, and a falsy value in any of the six
free-text fields (the empty string in particular) yields an empty-string
cell. -/
theorem doPost_falsy_as_absent
    (now : String) (fs : List (String × JSValue)) (env : SheetEnv) (rows : List Row)
    (hs : findSheet SHEET_NAME env.sheets = some rows)
    (ha : env.appendError = none) :
    findSheet SHEET_NAME (doPost now (.ok (.obj fs)) env).2.sheets =
      some (rows ++ [rowOfObj now fs]) ∧
    (∀ v, fs.lookup "date_joined" = some v → truthy v = false →
      (rowOfObj now fs).getD 6 .undefined = .str now) ∧
    (∀ i v, i < 6 → fs.lookup (fieldKeys.getD i "") = some v → truthy v = false →
      (rowOfObj now fs).getD i .undefined = .str "") := by
  refine ⟨?_, ?_, ?_⟩
  · rw [doPost_obj_ok now fs env rows hs ha]
    exact findSheet_appendToSheet _ _ _ _ hs
  · intro v hv hf
    simp [rowOfObj, cellOf, hv, jsOr, hf]
  · intro i v hi hv hf
    interval_cases i <;> simp [fieldKeys] at hv <;>
      simp [rowOfObj, cellOf, hv, jsOr, hf]

/-- Witness for C9: `date_joined` supplied as the empty string and `email`
supplied as the falsy number 0. -/
theorem doPost_falsy_as_absent_witness :
    findSheet SHEET_NAME
      (doPost "04/01/2026"
        (.ok (.obj [("date_joined", .str ""), ("email", .num 0)]))
        ⟨[("Registrants", [])], none⟩).2.sheets =
      some ([] ++ [rowOfObj "04/01/2026" [("date_joined", .str ""), ("email", .num 0)]]) ∧
    (rowOfObj "04/01/2026" [("date_joined", .str ""), ("email", .num 0)]).getD 6 .undefined
      = .str "04/01/2026" ∧
    (rowOfObj "04/01/2026" [("date_joined", .str ""), ("email", .num 0)]).getD 2 .undefined
      = .str "" := by
  have h := doPost_falsy_as_absent "04/01/2026"
    [("date_joined", .str ""), ("email", .num 0)] ⟨[("Registrants", [])], none⟩ [] rfl rfl
  exact ⟨h.1, h.2.1 (.str "") rfl rfl, h.2.2 2 (.num 0) (by decide) rfl rfl⟩

/-- C10: two object payloads that agree on the seven named keys produce
the same appended row and the same response at the same server date —
extra, unknown keys have no influence on the outcome. -/
theorem doPost_ignores_unknown_keys (now : String)
    (fs1 fs2 : List (String × JSValue)) (env : SheetEnv)
    (h : ∀ k ∈ fieldKeys, fs1.lookup k = fs2.lookup k) :
    doPost now (.ok (.obj fs1)) env = doPost now (.ok (.obj fs2)) env := by
  have hrow : rowOfObj now fs1 = rowOfObj now fs2 := by
    simp only [rowOfObj, cellOf]
    rw [h "first_name" (by simp [fieldKeys]), h "last_name" (by simp [fieldKeys]),
      h "email" (by simp [fieldKeys]), h "linkedin_url" (by simp [fieldKeys]),
      h "company" (by simp [fieldKeys]), h "job_title" (by simp [fieldKeys]),
      h "date_joined" (by simp [fieldKeys])]
  rcases hfs : findSheet SHEET_NAME env.sheets with _ | rows
  · simp [doPost, hfs]
  rcases hae : env.appendError with _ | e
  · simp [doPost, hfs, hae, buildRow_obj, hrow]
  · simp [doPost, hfs, hae, buildRow_obj]

/-- Witness for C10: payloads sharing `first_name` but with different
unknown extra keys. -/
theorem doPost_ignores_unknown_keys_witness :
    doPost "05/01/2026"
      (.ok (.obj [("first_name", .str "A"), ("extra", .num 1)]))
      ⟨[("Registrants", [])], none⟩ =
    doPost "05/01/2026"
      (.ok (.obj [("other", .bool true), ("first_name", .str "A")]))
      ⟨[("Registrants", [])], none⟩ :=
  doPost_ignores_unknown_keys "05/01/2026"
    [("first_name", .str "A"), ("extra", .num 1)]
    [("other", .bool true), ("first_name", .str "A")]
    ⟨[("Registrants", [])], none⟩
    (by
      intro k hk
      simp only [fieldKeys] at hk
      fin_cases hk <;> rfl)

end PECollective
